import Mathlib

/-!
Verification development for the Interactive-Data-Visualization-Platform
data pipeline: the constrained synthetic-series generator
(`generate_experimental_data.py`) and the constraint verifier
(`verify_tasks.py`, `scripts/verify-task-answers.py`).

The generator draws pseudo-random noise from NumPy's seeded global stream.
We embed it shallowly over ℚ, parameterised by abstract noise streams, one
day-indexed stream per sampling site:

  * `tempN`, `aqiN`, `co2N` — standard-normal draws (`np.random.normal(0, σ)`
    is embedded as `σ * draw`); a normal draw can be any real number, so
    these streams are unconstrained;
  * `aqiU`, `precU` — unit-uniform draws in `[0, 1)` (`np.random.uniform(a, b)`
    is embedded as `a + (b - a) * draw`);
  * `precR` — the `np.random.random()` draws in `[0, 1)` used to decide the
    15% rain branch;
  * `precE` — unit-exponential draws, non-negative
    (`np.random.exponential(2.5)` is embedded as `2.5 * draw`);
  * `sinv` — the value of `np.sin(i / 7)` for day `i`, a deterministic
    quantity in `[-1, 1]` abstracted because the transcendental sine has no
    exact rational value.

The range facts are collected in `NS.Valid`.  Theorems universally
quantified over valid streams hold for every run of the Python program,
whatever the realised pseudo-random values.
-/

namespace EnvData

/-- Abstract noise streams feeding the generator, one value per day index. -/
structure NS where
  tempN : ℕ → ℚ
  aqiU : ℕ → ℚ
  aqiN : ℕ → ℚ
  co2N : ℕ → ℚ
  sinv : ℕ → ℚ
  precU : ℕ → ℚ
  precR : ℕ → ℚ
  precE : ℕ → ℚ

/-- Range constraints that every realised NumPy stream satisfies: uniforms
and `random()` draws lie in `[0, 1)`, exponential draws are non-negative,
and the sine values lie in `[-1, 1]`. -/
def NS.Valid (s : NS) : Prop :=
  (∀ i, 0 ≤ s.aqiU i ∧ s.aqiU i < 1) ∧
  (∀ i, -1 ≤ s.sinv i ∧ s.sinv i ≤ 1) ∧
  (∀ i, 0 ≤ s.precU i ∧ s.precU i < 1) ∧
  (∀ i, 0 ≤ s.precR i ∧ s.precR i < 1) ∧
  (∀ i, 0 ≤ s.precE i)

/-- The all-zero noise stream (a valid stream, used to instantiate
universally quantified theorems). -/
def zeroNS : NS :=
  ⟨fun _ => 0, fun _ => 0, fun _ => 0, fun _ => 0,
   fun _ => 0, fun _ => 0, fun _ => 0, fun _ => 0⟩

/-- Month of day index `i` in the horizon Jan 1 – Apr 10, 2023:
indices 0–30 are January, 31–58 February, 59–89 March, 90–99 April. -/
def month (i : ℕ) : ℕ :=
  if i < 31 then 1 else if i < 59 then 2 else if i < 90 then 3 else 4

/-- Day of month of day index `i` (`date.day` in the source). -/
def dayOfMonth (i : ℕ) : ℕ :=
  if i < 31 then i + 1 else if i < 59 then i - 30 else if i < 90 then i - 58
  else i - 89

/-- Temperature for day `i`, from the temperature loop of
`generate_experimental_data.py`: a per-month piecewise-linear base plus
scaled normal noise, clamped below at 0 (`max(0, temp)`). -/
def temperature (s : NS) (i : ℕ) : ℚ :=
  if month i = 1 then
    max 0 ((5 + (i : ℚ) / 31 * 5) + 1.5 * s.tempN i)
  else if month i = 2 then
    max 0 ((10 + ((i : ℚ) - 31) / 28 * 5) + 1.8 * s.tempN i)
  else if month i = 3 then
    max 0 ((15 + ((i : ℚ) - 59) / 31 * 5) + 2 * s.tempN i)
  else
    max 0 (20 + 2 * s.tempN i)

/-- Air-quality value for day `i` before the `int()` conversion, from the
AQI loop: January has a peak override on days 20–25 (days 21–23 higher
still) and otherwise an affine decreasing function of that day's
temperature; February uses large noise with days 12 and 18 clamped up to
at least 105; March and April are flat.  Every branch is floored at 30
(February's forced days at 105). -/
def aqiVal (s : NS) (i : ℕ) : ℚ :=
  if month i = 1 then
    (if 20 ≤ dayOfMonth i ∧ dayOfMonth i ≤ 25 then
      (if dayOfMonth i = 21 ∨ dayOfMonth i = 22 ∨ dayOfMonth i = 23 then
        max 30 ((145 + 10 * s.aqiU i) + 3 * s.aqiN i)
      else
        max 30 ((130 + (-5 + 15 * s.aqiU i)) + 3 * s.aqiN i))
    else
      max 30 ((150 - temperature s i * 12) + 3 * s.aqiN i))
  else if month i = 2 then
    (if dayOfMonth i = 12 ∨ dayOfMonth i = 18 then
      max 105 (max 30 (80 + 25 * s.aqiN i))
    else
      max 30 (80 + 25 * s.aqiN i))
  else if month i = 3 then
    max 30 (70 + 10 * s.aqiN i)
  else
    max 30 (65 + 8 * s.aqiN i)

/-- Air-quality index for day `i`: the source applies Python `int()`, which
truncates toward zero; since `aqiVal` is at least 30 this is the floor. -/
def aqi (s : NS) (i : ℕ) : ℤ :=
  ⌊aqiVal s i⌋

/-- CO2 for day `i`: oscillating base `410 + 8·sin(i/7)` plus noise,
clamped into `[385, 435]` (`max(385, min(435, co2_val))`). -/
def co2 (s : NS) (i : ℕ) : ℚ :=
  max 385 (min 435 ((410 + 8 * s.sinv i) + 4 * s.co2N i))

/-- Precipitation for day `i`: February 12 and 18 are forced heavy-rain
days drawn from `uniform(6, 15)`; otherwise with probability 0.15 an
exponential rain event, else a trace amount from `uniform(0, 0.5)`;
clamped below at 0 (`max(0, precip)`). -/
def precipitation (s : NS) (i : ℕ) : ℚ :=
  if month i = 2 ∧ (dayOfMonth i = 12 ∨ dayOfMonth i = 18) then
    max 0 (6 + 9 * s.precU i)
  else if s.precR i < 0.15 then
    max 0 (2.5 * s.precE i)
  else
    max 0 (0.5 * s.precU i)

/-- The generator's output: the four Series, in the order they are built
and persisted by `generate_experimental_data.py`. -/
structure GenOutput where
  temperature : List ℚ
  airQuality : List ℤ
  co2 : List ℚ
  precipitation : List ℚ

/-- One full generator run over the 100-day horizon. -/
def generate (s : NS) : GenOutput :=
  ⟨(List.range 100).map (temperature s),
   (List.range 100).map (aqi s),
   (List.range 100).map (co2 s),
   (List.range 100).map (precipitation s)⟩

/-- Arithmetic mean of a list (0 for the empty list, since `0 / 0 = 0`
in ℚ; the verifier only ever takes means of non-empty slices). -/
def mean (l : List ℚ) : ℚ :=
  l.sum / l.length

/-- Population variance, as computed by `np.var` in the generator's
self-verification block. -/
def popVar (l : List ℚ) : ℚ :=
  ((l.map fun x => (x - mean l) ^ 2).sum) / l.length

/-- Sample variance (`ddof = 1`), as computed by pandas `.var()` in
`verify_tasks.py`. -/
def sampleVar (l : List ℚ) : ℚ :=
  ((l.map fun x => (x - mean l) ^ 2).sum) / ((l.length : ℚ) - 1)

/-- Index of the maximum of a list, earliest occurrence first, matching
pandas `idxmax` / `np.argmax` tie-breaking (the fold only moves on a
strictly larger value). -/
def idxmax (l : List ℤ) : ℕ :=
  match l with
  | [] => 0
  | a :: _ => (l.enum.foldl (fun b p => if b.2 < p.2 then p else b) (0, a)).1

/-- The Python slice `[31:59]` — the 28 February entries of a series. -/
def sliceFeb (l : List ℚ) : List ℚ :=
  (l.drop 31).take 28

/-- The Python slice `[:31]` — the January entries of a series. -/
def sliceJan (l : List ℚ) : List ℚ :=
  l.take 31

/-- The Python slice `[59:90]` — the March entries of a series. -/
def sliceMar (l : List ℚ) : List ℚ :=
  (l.drop 59).take 31

/-- The T5 count on the generator side: February days (indices 31–58,
the slice `[31:59]`) whose precipitation exceeds 5 mm and whose AQI
exceeds 100. -/
def t5countGen (s : NS) : ℕ :=
  (List.range' 31 28).countP fun i =>
    decide ((5 : ℚ) < precipitation s i ∧ (100 : ℤ) < aqi s i)

/-- The statistics and verdicts derived from one generated run, following
`verify_tasks.py` (T2's Pearson coefficient, which needs a square root,
is omitted; it is a function of the same series, so it coincides between
runs whenever the series do). -/
structure Report where
  febVarTemp : ℚ
  febVarAqi : ℚ
  febVarCo2 : ℚ
  febVarPrecip : ℚ
  t1pass : Bool
  t3idx : ℕ
  t3pass : Bool
  tempIncrease : ℚ
  co2Change : ℚ
  t46pass : Bool
  t5count : ℕ
  t5pass : Bool

/-- All derived statistics and verdicts of one run: February sample
variances and the T1 comparison, the T3 earliest arg-max check, the T4/T6
mean-difference check and the T5 count check, as in `verify_tasks.py`. -/
def fullReport (s : NS) : Report :=
  let g := generate s
  let aqiQ := g.airQuality.map fun a => (a : ℚ)
  let vT := sampleVar (sliceFeb g.temperature)
  let vA := sampleVar (sliceFeb aqiQ)
  let vC := sampleVar (sliceFeb g.co2)
  let vP := sampleVar (sliceFeb g.precipitation)
  let j := idxmax g.airQuality
  let ti := mean (sliceMar g.temperature) - mean (sliceJan g.temperature)
  let cc := mean (sliceMar g.co2) - mean (sliceJan g.co2)
  let c5 := t5countGen s
  ⟨vT, vA, vC, vP, decide (max vT (max vC vP) < vA),
   j, decide (month j = 1 ∧ 20 ≤ dayOfMonth j ∧ dayOfMonth j ≤ 25),
   ti, cc, decide (10 < ti ∧ |cc| < 5),
   c5, decide (c5 = 1 ∨ c5 = 2)⟩

/-!
Model of the verifier's input handling (`verify_tasks.py`).  Each of the
four CSV files is read with `pd.read_csv`; a missing or unreadable file
raises and the run aborts, which we model by an `Option Frame` input being
`none`.  A loaded frame is the parsed rows: a date (month and day, as
produced by `pd.to_datetime`) paired with the value column.  The script
then builds boolean month masks from the *temperature* frame's dates and
indexes every frame with them.  pandas aligns a boolean mask on the
default integer index: with equal row counts the mask applies purely
positionally, and with different row counts the indexer is unalignable
and pandas raises (the run aborts).  At no point are the date columns of
the four frames compared.
-/

/-- A parsed date as the verifier sees it: calendar month and day. -/
structure VDate where
  m : ℕ
  d : ℕ
deriving DecidableEq

/-- A loaded CSV frame: one (date, value) row per day. -/
abbrev Frame := List (VDate × ℚ)

/-- The date column of a frame. -/
def datesOf (f : Frame) : List VDate :=
  f.map fun r => r.1

/-- Mutual alignment of the four frames' date ranges: every file carries
the same date column as the temperature file. -/
def AlignedFrames (t a c p : Frame) : Prop :=
  datesOf a = datesOf t ∧ datesOf c = datesOf t ∧ datesOf p = datesOf t

/-- The boolean February mask computed from a frame's own dates
(`df['Date'].dt.month == 2`). -/
def febMaskOf (f : Frame) : List Bool :=
  f.map fun r => decide (r.1.m = 2)

/-- Positional application of a boolean mask to a frame's value column,
as pandas does for an index-aligned mask. -/
def maskSelect (mask : List Bool) (f : Frame) : List ℚ :=
  ((mask.zip f).filter fun q => q.1).map fun q => q.2.2

/-- The part of the verifier's report the abort behaviour is observed
through (the T1 and T5 verdicts; the remaining tasks reuse the same masks
and do not change whether a report is produced). -/
structure VOut where
  t1pass : Bool
  t5count : ℕ
  t5pass : Bool
deriving DecidableEq

/-- The verifier run of `verify_tasks.py` on the four loaded files:
aborts (`none`) when a file is missing or unreadable, and otherwise
produces a report, applying the February mask from the temperature frame
positionally to all four frames.  On differing row counts pandas's mask
alignment is asymmetric (it raises for a frame longer than the
temperature frame but truncates a shorter one); the model conservatively
aborts on that branch, and no theorem below relies on it — the
properties proved concern only the all-present equal-length case and the
missing-file case, where the script's behaviour is unambiguous. -/
def runVerifier (ft fa fc fp : Option Frame) : Option VOut :=
  match ft, fa, fc, fp with
  | some t, some a, some c, some p =>
    if a.length = t.length ∧ c.length = t.length ∧ p.length = t.length then
      let mask := febMaskOf t
      let vT := sampleVar (maskSelect mask t)
      let vA := sampleVar (maskSelect mask a)
      let vC := sampleVar (maskSelect mask c)
      let vP := sampleVar (maskSelect mask p)
      let precipHigh := (maskSelect mask p).map fun x => decide (5 < x)
      let aqiHigh := (maskSelect mask a).map fun x => decide (100 < x)
      let cnt := ((precipHigh.zip aqiHigh).filter fun q => q.1 && q.2).length
      some ⟨decide (max vT (max vC vP) < vA), cnt, decide (cnt = 1 ∨ cnt = 2)⟩
    else none
  | _, _, _, _ => none

/-- A one-row temperature frame dated February 1 (concrete input for the
alignment analysis). -/
def tEx : Frame := [(⟨2, 1⟩, 0)]

/-- A one-row air-quality frame dated March 1 — same row count as `tEx`
but a different date column. -/
def aEx : Frame := [(⟨3, 1⟩, 0)]

/-- A one-row CO2 frame dated February 1. -/
def cEx : Frame := [(⟨2, 1⟩, 0)]

/-- A one-row precipitation frame dated February 1. -/
def pEx : Frame := [(⟨2, 1⟩, 0)]

/-! Helper lemmas shared by the claim theorems. -/

/-- Every branch of the temperature loop ends in `max(0, ·)`. -/
lemma temperature_nonneg (s : NS) (i : ℕ) : 0 ≤ temperature s i := by
  unfold temperature
  split_ifs <;> exact le_max_left 0 _

/-- Every branch of the AQI loop floors the value at 30 (the February
forced days at 105 ≥ 30). -/
lemma aqiVal_ge_30 (s : NS) (i : ℕ) : (30 : ℚ) ≤ aqiVal s i := by
  unfold aqiVal
  split_ifs <;>
    first
      | exact le_max_left 30 _
      | exact le_trans (le_max_left 30 _) (le_max_right 105 _)

/-- AQI values are at least 30 as integers. -/
lemma aqi_ge_30 (s : NS) (i : ℕ) : (30 : ℤ) ≤ aqi s i := by
  unfold aqi
  exact Int.le_floor.mpr (by exact_mod_cast aqiVal_ge_30 s i)

/-- CO2 values are clamped at or above 385. -/
lemma co2_ge_385 (s : NS) (i : ℕ) : (385 : ℚ) ≤ co2 s i :=
  le_max_left 385 _

/-- Every branch of the precipitation loop ends in `max(0, ·)`. -/
lemma precipitation_nonneg (s : NS) (i : ℕ) : 0 ≤ precipitation s i := by
  unfold precipitation
  split_ifs <;> exact le_max_left 0 _

/-- On a forced February day (month 2, day 12 or 18) the AQI value is
clamped up to at least 105. -/
lemma aqiVal_forced (s : NS) (i : ℕ) (h1 : month i = 2)
    (h2 : dayOfMonth i = 12 ∨ dayOfMonth i = 18) :
    (105 : ℚ) ≤ aqiVal s i := by
  unfold aqiVal
  rw [h1]
  norm_num
  rcases h2 with h2 | h2 <;> rw [h2] <;> norm_num

/-- On a forced February day the integer AQI is clamped up to at
least 105. -/
lemma aqi_forced (s : NS) (i : ℕ) (h1 : month i = 2)
    (h2 : dayOfMonth i = 12 ∨ dayOfMonth i = 18) :
    (105 : ℤ) ≤ aqi s i := by
  unfold aqi
  exact Int.le_floor.mpr (by exact_mod_cast aqiVal_forced s i h1 h2)

/-- On a forced February day the precipitation is drawn from
`uniform(6, 15)`: it lies in `[6, 15)`. -/
lemma precipitation_forced (s : NS) (hs : s.Valid) (i : ℕ)
    (h1 : month i = 2) (h2 : dayOfMonth i = 12 ∨ dayOfMonth i = 18) :
    (6 : ℚ) ≤ precipitation s i ∧ precipitation s i < 15 := by
  obtain ⟨-, -, hu, -, -⟩ := hs
  obtain ⟨hu0, hu1⟩ := hu i
  unfold precipitation
  rw [if_pos ⟨h1, h2⟩]
  constructor
  · exact le_trans (by linarith) (le_max_right 0 _)
  · rw [max_eq_right (by linarith)]
    linarith

/-- The all-zero noise stream satisfies the range constraints. -/
lemma zeroNS_valid : zeroNS.Valid := by
  refine ⟨fun i => ⟨?_, ?_⟩, fun i => ⟨?_, ?_⟩, fun i => ⟨?_, ?_⟩,
    fun i => ⟨?_, ?_⟩, fun i => ?_⟩ <;> norm_num [zeroNS]

/-! Claim theorems. -/

/-- Claim C6: for every noise stream, the generator outputs exactly four
series (the four fields of `GenOutput`), each of length equal to the
100-day horizon, every value in every series is non-negative, and every
air-quality value is additionally a non-negative integer (the air-quality
series is a list of integers by construction, via `int()`). -/
theorem generate_c6 (s : NS) :
    (generate s).temperature.length = 100 ∧
    (generate s).airQuality.length = 100 ∧
    (generate s).co2.length = 100 ∧
    (generate s).precipitation.length = 100 ∧
    (∀ x ∈ (generate s).temperature, 0 ≤ x) ∧
    (∀ x ∈ (generate s).airQuality, 0 ≤ x) ∧
    (∀ x ∈ (generate s).co2, 0 ≤ x) ∧
    (∀ x ∈ (generate s).precipitation, 0 ≤ x) := by
  refine ⟨by simp [generate], by simp [generate], by simp [generate],
    by simp [generate], ?_, ?_, ?_, ?_⟩ <;> intro x hx <;>
    simp only [generate, List.mem_map] at hx <;> obtain ⟨i, -, rfl⟩ := hx
  · exact temperature_nonneg s i
  · exact le_trans (by norm_num) (aqi_ge_30 s i)
  · exact le_trans (by norm_num) (co2_ge_385 s i)
  · exact precipitation_nonneg s i

/-- Claim C9: the generator is deterministic given the fixed seed.
`np.random.seed(42)` pins the entire pseudo-random stream, so two runs
with the same seed read pointwise-equal noise streams; under that
hypothesis the four series coincide at every position and all derived
statistics and verifier verdicts coincide. -/
theorem generate_deterministic_c9 (s1 s2 : NS)
    (h : ∀ i, s1.tempN i = s2.tempN i ∧ s1.aqiU i = s2.aqiU i ∧
      s1.aqiN i = s2.aqiN i ∧ s1.co2N i = s2.co2N i ∧
      s1.sinv i = s2.sinv i ∧ s1.precU i = s2.precU i ∧
      s1.precR i = s2.precR i ∧ s1.precE i = s2.precE i) :
    generate s1 = generate s2 ∧ fullReport s1 = fullReport s2 := by
  have h1 : s1.tempN = s2.tempN := funext fun i => (h i).1
  have h2 : s1.aqiU = s2.aqiU := funext fun i => (h i).2.1
  have h3 : s1.aqiN = s2.aqiN := funext fun i => (h i).2.2.1
  have h4 : s1.co2N = s2.co2N := funext fun i => (h i).2.2.2.1
  have h5 : s1.sinv = s2.sinv := funext fun i => (h i).2.2.2.2.1
  have h6 : s1.precU = s2.precU := funext fun i => (h i).2.2.2.2.2.1
  have h7 : s1.precR = s2.precR := funext fun i => (h i).2.2.2.2.2.2.1
  have h8 : s1.precE = s2.precE := funext fun i => (h i).2.2.2.2.2.2.2
  have hs : s1 = s2 := by cases s1; cases s2; simp_all
  rw [hs]
  exact ⟨rfl, rfl⟩

/-- Claim C9 witness: the determinism theorem applied to two copies of the
all-zero stream. -/
theorem generate_deterministic_c9_witness :
    generate zeroNS = generate zeroNS ∧
    fullReport zeroNS = fullReport zeroNS :=
  generate_deterministic_c9 zeroNS zeroNS
    (fun _ => ⟨rfl, rfl, rfl, rfl, rfl, rfl, rfl, rfl⟩)

/-- Claim C10: regardless of the random draws, day index 42 (February 12)
and day index 48 (February 18) have integer AQI clamped to at least 105
(hence strictly above 100) and precipitation drawn from `uniform(6, 15)`
(hence strictly above 5 mm), so the February count of days with
precipitation above 5 mm and AQI above 100 is always at least 2 and the
"exactly 1" outcome is unreachable. -/
theorem forced_feb_days_c10 (s : NS) (hs : s.Valid) :
    (105 : ℤ) ≤ aqi s 42 ∧ (105 : ℤ) ≤ aqi s 48 ∧
    (6 : ℚ) ≤ precipitation s 42 ∧ precipitation s 42 < 15 ∧
    (6 : ℚ) ≤ precipitation s 48 ∧ precipitation s 48 < 15 ∧
    2 ≤ t5countGen s ∧ t5countGen s ≠ 1 := by
  have hm42 : month 42 = 2 := by decide
  have hd42 : dayOfMonth 42 = 12 := by decide
  have hm48 : month 48 = 2 := by decide
  have hd48 : dayOfMonth 48 = 18 := by decide
  have ha42 := aqi_forced s 42 hm42 (Or.inl hd42)
  have ha48 := aqi_forced s 48 hm48 (Or.inr hd48)
  have hp42 := precipitation_forced s hs 42 hm42 (Or.inl hd42)
  have hp48 := precipitation_forced s hs 48 hm48 (Or.inr hd48)
  have hcount : 2 ≤ t5countGen s := by
    have hsplit : List.range' 31 28 =
        List.range' 31 11 ++ 42 :: (List.range' 43 5 ++ 48 :: List.range' 49 10) := by
      decide
    have e42 : decide ((5 : ℚ) < precipitation s 42 ∧ (100 : ℤ) < aqi s 42) = true := by
      rw [decide_eq_true_iff]
      exact ⟨lt_of_lt_of_le (by norm_num) hp42.1, lt_of_lt_of_le (by norm_num) ha42⟩
    have e48 : decide ((5 : ℚ) < precipitation s 48 ∧ (100 : ℤ) < aqi s 48) = true := by
      rw [decide_eq_true_iff]
      exact ⟨lt_of_lt_of_le (by norm_num) hp48.1, lt_of_lt_of_le (by norm_num) ha48⟩
    rw [t5countGen, hsplit]
    simp only [List.countP_append, List.countP_cons, e42, e48, if_true]
    omega
  exact ⟨ha42, ha48, hp42.1, hp42.2, hp48.1, hp48.2, hcount, by omega⟩

/-- Claim C10 witness: the forced-day theorem applied to the all-zero
stream. -/
theorem forced_feb_days_c10_witness :
    (105 : ℤ) ≤ aqi zeroNS 42 ∧ (105 : ℤ) ≤ aqi zeroNS 48 ∧
    (6 : ℚ) ≤ precipitation zeroNS 42 ∧ precipitation zeroNS 42 < 15 ∧
    (6 : ℚ) ≤ precipitation zeroNS 48 ∧ precipitation zeroNS 48 < 15 ∧
    2 ≤ t5countGen zeroNS ∧ t5countGen zeroNS ≠ 1 :=
  forced_feb_days_c10 zeroNS zeroNS_valid

/-- Claim C8 counterexample: four frames that all load, all with one row,
whose date columns are not mutually aligned (the air-quality frame is
dated March instead of February); the verifier does not abort but
produces a report. -/
theorem runVerifier_misaligned_c8_cex :
    ¬ AlignedFrames tEx aEx cEx pEx ∧
    runVerifier (some tEx) (some aEx) (some cEx) (some pEx) ≠ none := by
  constructor
  · intro h
    simp [AlignedFrames, datesOf, tEx, aEx, cEx, pEx] at h
  · simp [runVerifier, tEx, aEx, cEx, pEx]

/-- Claim C8 (amended): the verifier aborts when one of the four files is
missing or unreadable, but date alignment is never checked — whenever all
four files load and have equal row counts, a report is produced whether or
not the date columns mutually agree, by applying the temperature-derived
masks positionally. -/
theorem runVerifier_abort_iff_c8 (ft fa fc fp : Option Frame) :
    ((ft = none ∨ fa = none ∨ fc = none ∨ fp = none) →
      runVerifier ft fa fc fp = none) ∧
    (∀ t a c p, ft = some t → fa = some a → fc = some c → fp = some p →
      a.length = t.length → c.length = t.length → p.length = t.length →
      (runVerifier ft fa fc fp).isSome = true) := by
  constructor
  · intro h
    rcases ft with - | t <;> rcases fa with - | a <;> rcases fc with - | c <;>
      rcases fp with - | p <;> simp_all [runVerifier]
  · intro t a c p h1 h2 h3 h4 hl1 hl2 hl3
    subst h1; subst h2; subst h3; subst h4
    simp [runVerifier, hl1, hl2, hl3]

/-- Claim C8 amended-theorem witness: a missing temperature file aborts
the run, and four equal-length loaded files (here with misaligned dates)
produce a report. -/
theorem runVerifier_abort_iff_c8_witness :
    runVerifier none (some aEx) (some cEx) (some pEx) = none ∧
    (runVerifier (some tEx) (some aEx) (some cEx) (some pEx)).isSome = true :=
  ⟨(runVerifier_abort_iff_c8 none (some aEx) (some cEx) (some pEx)).1
      (Or.inl rfl),
   (runVerifier_abort_iff_c8 (some tEx) (some aEx) (some cEx) (some pEx)).2
      tEx aEx cEx pEx rfl rfl rfl rfl rfl rfl rfl⟩

end EnvData
